import Mathlib

/-!
Verification of the nail-assessment pipeline in `src/main.py`.

The file shallowly embeds the pipeline: Python strings become Lean `String`,
Python dicts become insertion-ordered association lists, JSON values become
the inductive `PyVal`, exceptions become `Except PyErr`, and the external
collaborators (HTTP client, Drive download transport, image libraries, the
chat oracle, `json.loads`) become fields of an `Env` record.  Module-level
Python name resolution, which matters for `_download_drive_file`, is embedded
explicitly via the list of names bound at module top level.
-/

namespace NailTest

/-! ### Small string / list helpers mirroring Python builtins -/

/-- Python `str.lower()` restricted to the ASCII letters that occur in the
program's key names. -/
def pyLower (s : String) : String := String.mk (s.data.map Char.toLower)

/-- Python `str.strip()`: remove leading and trailing whitespace. -/
def pyStrip (s : String) : String :=
  String.mk (((s.data.dropWhile Char.isWhitespace).reverse.dropWhile
      Char.isWhitespace).reverse)

/-- Worker for `collapseWs`: `prevWs` records whether the previous character
belonged to a whitespace run whose single replacement space has already been
emitted. -/
def collapseWsAux (prevWs : Bool) : List Char → List Char
  | [] => []
  | c :: rest =>
    if c.isWhitespace then
      (if prevWs then [] else [' ']) ++ collapseWsAux true rest
    else c :: collapseWsAux false rest

/-- Collapse each maximal run of whitespace to a single space, the effect of
`.str.replace(r"\s+", " ", regex=True)` on a header name. -/
def collapseWs (l : List Char) : List Char := collapseWsAux false l

/-- Python `a.startswith(b)`. -/
def pyStartsWith (s pre : String) : Bool := pre.data.isPrefixOf s.data

/-- Index of the first occurrence of `needle` in `hay`, if any. -/
def findSubIdx (needle hay : List Char) : Option Nat :=
  (List.range (hay.length + 1)).find? fun i => needle.isPrefixOf (hay.drop i)

/-- Python `needle in hay` on strings. -/
def strContains (hay needle : String) : Bool :=
  (findSubIdx needle.data hay.data).isSome

/-- Fuel-driven splitter used to embed Python `str.split(sep)` for a
non-empty separator. -/
def pySplitAux (sep : List Char) : Nat → List Char → List (List Char)
  | 0, l => [l]
  | fuel + 1, l =>
    match findSubIdx sep l with
    | some i => l.take i :: pySplitAux sep fuel (l.drop (i + sep.length))
    | none => [l]

/-- Python `s.split(sep)` for a non-empty separator. -/
def pySplit (s sep : String) : List String :=
  (pySplitAux sep.data (s.data.length + 1) s.data).map String.mk

/-- Python `str.find`: index of the first occurrence of a character. -/
def findIdxChar (c : Char) : List Char → Option Nat
  | [] => none
  | a :: l => if a = c then some 0 else (findIdxChar c l).map (· + 1)

/-- Python `str.rfind`: index of the last occurrence of a character. -/
def rfindIdxChar (c : Char) (l : List Char) : Option Nat :=
  (findIdxChar c l.reverse).map fun j => l.length - 1 - j

/-- First index satisfying a predicate (Python `next` over a generator with
`enumerate`-style indexing). -/
def findIdxOpt (p : α → Bool) : List α → Option Nat
  | [] => none
  | a :: l => if p a then some 0 else (findIdxOpt p l).map (· + 1)

/-- `l[n]` with a default, used for positional dataframe cells. -/
def nthD (l : List α) (n : Nat) (d : α) : α :=
  match l, n with
  | [], _ => d
  | a :: _, 0 => a
  | _ :: l, n + 1 => nthD l n d

/-- Head with default (`split(...)[0]`). -/
def headD (l : List α) (d : α) : α := nthD l 0 d

/-- Last element with default (`split(...)[-1]`; split results are never
empty). -/
def lastD (l : List α) (d : α) : α := nthD l (l.length - 1) d

/-- Modify the element at one index, leaving the list unchanged otherwise. -/
def modifyIdx (l : List α) (i : Nat) (f : α → α) : List α :=
  match l, i with
  | [], _ => []
  | x :: xs, 0 => f x :: xs
  | x :: xs, n + 1 => x :: modifyIdx xs n f

/-! ### Python values, exceptions, dict operations -/

/-- The JSON-like values the pipeline manipulates: `null` doubles as Python
`None` and a pandas NaN cell, and `dict` is an insertion-ordered mapping as
produced by `json.loads`. -/
inductive PyVal : Type where
  | null : PyVal
  | str : String → PyVal
  | int : Int → PyVal
  | dict : List (String × PyVal) → PyVal

/-- The Python exceptions the pipeline can raise internally; every per-row
exception kind, whatever its class, is caught at the same boundaries. -/
inductive PyErr : Type where
  | nameError : String → PyErr
  | attributeError : PyErr
  | valueError : String → PyErr
  | jsonDecodeError : PyErr
  | httpError : PyErr
  | ioError : PyErr
  | chatError : PyErr
deriving DecidableEq

/-- Association-list lookup: Python `dict.get(k)` (keys are unique, so the
first hit is the value). -/
def alookup (l : List (String × β)) (k : String) : Option β :=
  match l with
  | [] => none
  | (k2, v) :: t => if k2 = k then some v else alookup t k

/-- Python `d[k] = v`: update in place if the key exists (keeping its
position), otherwise append, as insertion-ordered dicts do. -/
def dictSet (l : List (String × PyVal)) (k : String) (v : PyVal) :
    List (String × PyVal) :=
  match l with
  | [] => [(k, v)]
  | (k2, w) :: t => if k2 = k then (k2, v) :: t else (k2, w) :: dictSet t k v

/-- How an f-string renders a value returned by `dict.get` (a missing key
gives Python `None`, rendered `"None"`). `dict` values do not occur at the
positions where this is used by the program. -/
def pyFormat : Option PyVal → String
  | none => "None"
  | some PyVal.null => "None"
  | some (PyVal.str s) => s
  | some (PyVal.int n) => toString n
  | some (PyVal.dict _) => "dict"

/-- Truthiness of the pandas NaN / Python None cell model. -/
def PyVal.isNull : PyVal → Bool
  | PyVal.null => true
  | _ => false

/-! ### External collaborators

The HTTP client, Drive transport, filesystem, PIL / pdf2image, base64, the
chat oracle and `json.loads` are external to the core; they are supplied as
an environment of (possibly failing) functions. -/

/-- Raw byte buffers (image payloads). -/
abbrev Bytes := List Nat

/-- The external collaborators of `src/main.py`. -/
structure Env where
  /-- `Path(p).read_bytes()` -/
  readBytes : String → Except PyErr Bytes
  /-- the Drive media transport driven by `MediaIoBaseDownload` -/
  driveDownload : String → Except PyErr Bytes
  /-- `requests.get(url, timeout=10)` followed by `raise_for_status()`,
  yielding `resp.content` -/
  httpGet : String → Except PyErr Bytes
  /-- `convert_from_bytes(b, dpi=200, first_page=1, last_page=1)[0].convert("RGB")` -/
  pdfFirstPageRgb : Bytes → Except PyErr Bytes
  /-- `Image.open(io.BytesIO(b)).convert("RGB")` -/
  imageOpenRgb : Bytes → Except PyErr Bytes
  /-- `pil_img.save(buf, format="JPEG", quality=90, optimize=True)` -/
  jpegEncode : Bytes → Bytes
  /-- `base64.b64encode(data).decode()` -/
  b64encode : Bytes → String
  /-- `openai.chat.completions.create(...)`, yielding
  `resp.choices[0].message.content` -/
  chat : String → Except PyErr String
  /-- `json.loads`, `none` when it raises `JSONDecodeError` -/
  jsonLoads : String → Option PyVal

/-! ### Sections 4, 5, 8 constants of main.py -/

/-- Line 153 of main.py. -/
def categories : List String :=
  ["Polish Application", "Cuticle Work", "Nail Shape", "Cleanliness"]

/-- Lines 56-59 of main.py. -/
def result_cols : List String :=
  ["Polish Application", "Cuticle Work", "Nail Shape",
   "Cleanliness", "Overall Score", "Recommendation"]

/-! ### Section 6: image handling helpers -/

/-- The names bound at module top level in main.py (imports, section 3-8
globals; per-statement loop variables omitted).  The Drive client built at
line 35 is bound to the name `_service`; no statement anywhere in main.py
binds the name `drive_service`. -/
def moduleTopLevelNames : List String :=
  ["os", "io", "json", "base64", "requests", "Path", "openai", "pd",
   "Image", "UnidentifiedImageError", "pillow_heif", "convert_from_bytes",
   "gspread", "default", "service_account", "get_as_dataframe",
   "set_with_dataframe", "build", "MediaIoBaseDownload",
   "SERVICE_ACCOUNT_FILE", "SCOPES", "creds", "gc", "_service", "SHEET_URL",
   "ws", "tidy_headers", "raw_df", "photo_col", "df", "result_cols",
   "_download_drive_file", "_to_jpeg", "fetch_image_as_jpeg", "b64",
   "PROMPT", "get_nail_assessment", "categories", "flat_results"]

/-- `_download_drive_file` (main.py lines 65-73).  Its body immediately
dereferences the global name `drive_service`; Python resolves that name
against the module bindings, and since it is absent the call raises
`NameError` before the transport is ever used. -/
def download_drive_file (env : Env) (file_id : String) : Except PyErr Bytes :=
  if moduleTopLevelNames.contains "drive_service" then env.driveDownload file_id
  else Except.error (PyErr.nameError "drive_service")

/-- `_to_jpeg` (main.py lines 75-84): try PDF first-page decoding, fall back
to generic image decoding, then JPEG-encode. -/
def to_jpeg (env : Env) (img_bytes : Bytes) : Except PyErr Bytes :=
  match env.pdfFirstPageRgb img_bytes with
  | Except.ok pil_img => Except.ok (env.jpegEncode pil_img)
  | Except.error _ =>
    match env.imageOpenRgb img_bytes with
    | Except.ok pil_img => Except.ok (env.jpegEncode pil_img)
    | Except.error e => Except.error e

/-- The body of the `try:` block of `fetch_image_as_jpeg`
(main.py lines 88-103).  A non-string cell (NaN) raises `AttributeError` at
`.startswith`. -/
def fetchBody (env : Env) (path_or_url : PyVal) : Except PyErr Bytes :=
  match path_or_url with
  | PyVal.str p =>
    if pyStartsWith p "/content/drive/" then
      match env.readBytes p with
      | Except.ok b => to_jpeg env b
      | Except.error e => Except.error e
    else
      let file_id : Option String :=
        if strContains p "open?id=" then some (lastD (pySplit p "open?id=") "")
        else if strContains p "/file/d/" then
          some (headD (pySplit (nthD (pySplit p "/file/d/") 1 "") "/") "")
        else none
      match file_id with
      | some fid =>
        if fid = "" then
          match env.httpGet p with
          | Except.ok b => to_jpeg env b
          | Except.error e => Except.error e
        else
          match download_drive_file env fid with
          | Except.ok b => to_jpeg env b
          | Except.error e => Except.error e
      | none =>
        match env.httpGet p with
        | Except.ok b => to_jpeg env b
        | Except.error e => Except.error e
  | _ => Except.error PyErr.attributeError

/-- Rendering of a caught exception for the diagnostic line. -/
def pyErrStr : PyErr → String
  | PyErr.nameError n => "NameError: name " ++ n ++ " is not defined"
  | PyErr.attributeError => "AttributeError"
  | PyErr.valueError m => m
  | PyErr.jsonDecodeError => "JSONDecodeError"
  | PyErr.httpError => "HTTPError"
  | PyErr.ioError => "OSError"
  | PyErr.chatError => "OpenAIError"

/-- The diagnostic printed by the `except` clause at main.py line 106. -/
def fetchDiagMsg (e : PyErr) : String := "[fetch_image_as_jpeg] " ++ pyErrStr e

/-- `fetch_image_as_jpeg` (main.py lines 86-107): the whole body runs inside
`try: ... except Exception`, converting any exception into `None` plus one
printed diagnostic line. -/
def fetch_image_as_jpeg (env : Env) (path_or_url : PyVal) :
    Option Bytes × List String :=
  match fetchBody env path_or_url with
  | Except.ok b => (some b, [])
  | Except.error e => (none, [fetchDiagMsg e])

/-! ### Section 7: the scoring oracle -/

/-- Modelled from the spec: the overall score that the PROMPT
(main.py lines 114-131) instructs the external scoring oracle to compute,
"the average of these four numeric scores".  The oracle itself is an
external collaborator; this is its instructed computation. -/
def overallScoreOf (a b c d : Int) : ℚ := ((a : ℚ) + b + c + d) / 4

/-- Modelled from the spec: the recommendation label the PROMPT instructs
the oracle to pick from the overall score, by the thresholds 8.5 / 7 / 5.5
(main.py lines 125-129). -/
def recommendationOf (m : ℚ) : String :=
  if 8.5 ≤ m then "Highly Recommend Hire"
  else if 7 ≤ m then "Recommend Hire"
  else if 5.5 ≤ m then "Further Training Required"
  else "Not Recommend Hire"

/-- The two derived fields of an assessment produced per the PROMPT. -/
structure IdealAssessment where
  overall : ℚ
  recommendation : String

/-- Modelled from the spec: the derived fields of the assessment that an
oracle following the PROMPT returns for category scores `a b c d`. -/
def idealAssessment (a b c d : Int) : IdealAssessment :=
  { overall := overallScoreOf a b c d
    recommendation := recommendationOf (overallScoreOf a b c d) }

/-- `get_nail_assessment` (main.py lines 133-150): call the oracle, strip
the response, locate the first `\x7b` and last `\x7d`, and JSON-parse the
enclosed substring; a missing bracket raises `ValueError("No JSON found")`
and a failing parse raises `JSONDecodeError`. -/
def get_nail_assessment (env : Env) (jpeg_b64 : String) : Except PyErr PyVal :=
  match env.chat jpeg_b64 with
  | Except.error e => Except.error e
  | Except.ok content =>
    let raw := pyStrip content
    match findIdxChar '{' raw.data, rfindIdxChar '}' raw.data with
    | some s, some e =>
      match env.jsonLoads (String.mk ((raw.data.drop s).take (e + 1 - s))) with
      | some v => Except.ok v
      | none => Except.error PyErr.jsonDecodeError
    | _, _ => Except.error (PyErr.valueError "No JSON found")

/-! ### Section 8-B: key normalisation and value flattening -/

/-- `std_keys = {k.lower().strip(): k for k in categories}`
(main.py line 167). -/
def std_keys : List (String × String) :=
  categories.map fun k => (pyStrip (pyLower k), k)

/-- `std_keys.get(k.lower().strip(), k)` (main.py line 171). -/
def normalizeKey (k : String) : String :=
  (alookup std_keys (pyStrip (pyLower k))).getD k

/-- The dict comprehension at main.py lines 170-173, rebuilding the response
dict with normalised keys in insertion order. -/
def normalizeDict (res : List (String × PyVal)) : List (String × PyVal) :=
  res.foldl (fun acc kv => dictSet acc (normalizeKey kv.1) kv.2) []

/-- One iteration of the flatten loop (main.py lines 176-184) for the
category `cat`. -/
def flattenCat (res : List (String × PyVal)) (cat : String) :
    List (String × PyVal) :=
  match alookup res cat with
  | some (PyVal.dict item) =>
    dictSet res cat (PyVal.str
      (pyFormat (alookup item "score") ++ ", " ++ pyFormat (alookup item "comment")))
  | some (PyVal.str s) =>
    if pyStrip s ≠ "" then res else dictSet res cat (PyVal.str "None")
  | _ => dictSet res cat (PyVal.str "None")

/-- The full 8-B reconciliation: normalise keys, then flatten each of the
four categories in order. -/
def reconcile (res : List (String × PyVal)) : List (String × PyVal) :=
  categories.foldl flattenCat (normalizeDict res)

/-! ### Section 8: the row loop -/

/-- `{col: "None" for col in result_cols}` (main.py lines 160 and 191). -/
def sentinelRow : List (String × PyVal) :=
  result_cols.map fun c => (c, PyVal.str "None")

/-- `if not jpeg:` — `None` and the empty byte string are both falsy. -/
def truthyBytes : Option Bytes → Bool
  | none => false
  | some b => !b.isEmpty

/-- One iteration of the row loop (main.py lines 156-191) on the row's photo
cell.  The second component records whether `get_nail_assessment` was
invoked.  An `Except.ok` payload that is not a dict raises `AttributeError`
at `res.items()`, caught by the row-level `except` like any oracle error. -/
def processRowT (env : Env) (photoCell : PyVal) :
    List (String × PyVal) × Bool :=
  let jpeg := (fetch_image_as_jpeg env photoCell).1
  if truthyBytes jpeg = false then (sentinelRow, false)
  else
    match get_nail_assessment env (env.b64encode (jpeg.getD [])) with
    | Except.ok (PyVal.dict d) => (reconcile d, true)
    | Except.ok _ => (sentinelRow, true)
    | Except.error _ => (sentinelRow, true)

/-- The whole row loop over the photo cells, in dataset order. -/
def processCells (env : Env) (cells : List PyVal) :
    List (List (String × PyVal) × Bool) :=
  cells.map (processRowT env)

/-- One iteration of the row loop on a full dataframe row: the loop body
reads only `row[photo_col]` (main.py line 157), the cell at the photo
column index. -/
def processDfRow (env : Env) (j : Nat) (row : List PyVal) :
    List (String × PyVal) × Bool :=
  processRowT env (nthD row j PyVal.null)

/-! ### Sections 4, 5, 9: the dataframe and the top-level script -/

/-- A dataframe: named columns and positionally-indexed rows, as produced by
`get_as_dataframe`.  A missing cell reads as `PyVal.null` (NaN). -/
structure DF where
  columns : List String
  rows : List (List PyVal)

/-- The header tidying of `tidy_headers` (main.py lines 43-46): strip, then
collapse internal whitespace runs. -/
def tidyName (s : String) : String := String.mk (collapseWs (pyStrip s).data)

/-- `tidy_headers` (main.py lines 43-46): rename columns only. -/
def tidy_headers (df : DF) : DF := { df with columns := df.columns.map tidyName }

/-- `next((c for c in raw_df.columns if "photo" in c.lower()), None)`
(main.py line 49), as the index of the detected column. -/
def photoColIdx (df : DF) : Option Nat :=
  findIdxOpt (fun c => strContains (pyLower c) "photo") df.columns

/-- `df = raw_df.dropna(subset=[photo_col]).reset_index(drop=True)`
(main.py line 53). -/
def dropnaOn (df : DF) (j : Nat) : DF :=
  { df with rows := df.rows.filter fun r => !(nthD r j PyVal.null).isNull }

/-- Pad a row with NaN cells up to a width. -/
def padTo (r : List PyVal) (n : Nat) : List PyVal :=
  r ++ List.replicate (n - r.length) PyVal.null

/-- `if col not in df.columns: df[col] = None` (main.py lines 60-62). -/
def addColIfMissing (df : DF) (c : String) : DF :=
  if df.columns.contains c then df
  else { columns := df.columns ++ [c],
         rows := df.rows.map fun r => padTo r df.columns.length ++ [PyVal.null] }

/-- Set one positional cell of a row, enlarging the row with NaN cells if it
is shorter than the target index. -/
def setCell (r : List PyVal) (j : Nat) (v : PyVal) : List PyVal :=
  (padTo r (j + 1)).set j v

/-- `df.at[i, col] = val` (main.py line 196): write into the column if it
exists, otherwise enlarge the frame with a fresh column. -/
def atSet (df : DF) (i : Nat) (c : String) (v : PyVal) : DF :=
  match findIdxOpt (fun k => k == c) df.columns with
  | some j => { df with rows := modifyIdx df.rows i fun r => setCell r j v }
  | none =>
    { columns := df.columns ++ [c],
      rows := modifyIdx df.rows i fun r => setCell r df.columns.length v }

/-- The inner writeback loop `for col, val in res.items()`
(main.py lines 195-196). -/
def writeRowResults (df : DF) (i : Nat) (res : List (String × PyVal)) : DF :=
  res.foldl (fun d kv => atSet d i kv.1 kv.2) df

/-- The outer writeback loop `for i, res in enumerate(flat_results)`
(main.py lines 194-196), with `i` the running index. -/
def writebackAux (df : DF) (i : Nat) :
    List (List (String × PyVal)) → DF
  | [] => df
  | res :: t => writebackAux (writeRowResults df i res) (i + 1) t

/-- Writeback of all per-row results, indexed from 0. -/
def writebackAll (df : DF) (results : List (List (String × PyVal))) : DF :=
  writebackAux df 0 results

/-- The top-level script, sections 4-9 of main.py: tidy headers, detect the
photo column (a missing one raises at line 51, before any row is touched),
drop rows with an empty photo cell, ensure the six result columns, process
every row in order, write results back and resize the sheet to the final
frame (`set_with_dataframe(..., resize=True)`, line 198). -/
def runScript (env : Env) (sheet : DF) : Except PyErr DF :=
  let raw_df := tidy_headers sheet
  match photoColIdx raw_df with
  | none => Except.error (PyErr.valueError "No column containing photo found")
  | some j =>
    let df1 := dropnaOn raw_df j
    let df2 := result_cols.foldl addColIfMissing df1
    let flat_results := (df2.rows.map (processDfRow env j)).map Prod.fst
    Except.ok (writebackAll df2 flat_results)

/-! ### Concrete environments used by witnesses and counterexamples -/

/-- A benign environment: HTTP and Drive transports succeed, images decode,
the oracle answers with the empty JSON object. -/
def testEnv : Env :=
  { readBytes := fun _ => Except.error PyErr.ioError
    driveDownload := fun _ => Except.ok [7]
    httpGet := fun _ => Except.ok [1]
    pdfFirstPageRgb := fun _ => Except.error (PyErr.valueError "not a pdf")
    imageOpenRgb := fun b => Except.ok b
    jpegEncode := fun b => b
    b64encode := fun _ => "b64"
    chat := fun _ => Except.ok (String.mk ['{', '}'])
    jsonLoads := fun s =>
      if s = String.mk ['{', '}'] then some (PyVal.dict []) else none }

/-- An environment whose direct HTTP fetch fails. -/
def failEnv : Env := { testEnv with httpGet := fun _ => Except.error PyErr.httpError }

/-- The value the flatten loop leaves in a category slot, as a function of
the slot's previous content (read off main.py lines 177-184): a dict is
flattened to `"<score>, <comment>"`, a string that is non-empty after
stripping is kept, anything else becomes the `"None"` sentinel. -/
def flatValue : Option PyVal → PyVal
  | some (PyVal.dict item) =>
    PyVal.str (pyFormat (alookup item "score") ++ ", " ++ pyFormat (alookup item "comment"))
  | some (PyVal.str s) => if pyStrip s ≠ "" then PyVal.str s else PyVal.str "None"
  | _ => PyVal.str "None"

/-! ### Generic lemmas about the helper combinators -/

theorem nthD_replicate_null (m k : Nat) :
    nthD (List.replicate m PyVal.null) k PyVal.null = PyVal.null := by
  induction m generalizing k with
  | zero => cases k <;> rfl
  | succ m ih =>
    cases k with
    | zero => rfl
    | succ k => exact ih k

theorem nthD_append_nulls (r : List PyVal) (m k : Nat) :
    nthD (r ++ List.replicate m PyVal.null) k PyVal.null = nthD r k PyVal.null := by
  induction r generalizing k with
  | nil => simpa using nthD_replicate_null m k
  | cons a t ih =>
    cases k with
    | zero => rfl
    | succ k => exact ih k

theorem nthD_padTo (r : List PyVal) (n k : Nat) :
    nthD (padTo r n) k PyVal.null = nthD r k PyVal.null :=
  nthD_append_nulls r _ k

theorem nthD_set_ne (r : List PyVal) (j : Nat) (v : PyVal) (k : Nat)
    (h : k ≠ j) : nthD (r.set j v) k PyVal.null = nthD r k PyVal.null := by
  induction r generalizing j k with
  | nil => simp
  | cons a t ih =>
    cases j with
    | zero =>
      cases k with
      | zero => exact absurd rfl h
      | succ k => rfl
    | succ j =>
      cases k with
      | zero => rfl
      | succ k => exact ih j k fun hh => h (congrArg Nat.succ hh)

theorem nthD_setCell_ne (r : List PyVal) (j : Nat) (v : PyVal) (k : Nat)
    (h : k ≠ j) : nthD (setCell r j v) k PyVal.null = nthD r k PyVal.null := by
  unfold setCell
  rw [nthD_set_ne _ _ _ _ h, nthD_padTo]

theorem modifyIdx_length (l : List α) (i : Nat) (f : α → α) :
    (modifyIdx l i f).length = l.length := by
  induction l generalizing i with
  | nil => rfl
  | cons a t ih =>
    cases i with
    | zero => rfl
    | succ i => simp [modifyIdx, ih]

theorem nthD_modifyIdx_ne (l : List α) (i : Nat) (f : α → α) (m : Nat) (d : α)
    (h : m ≠ i) : nthD (modifyIdx l i f) m d = nthD l m d := by
  induction l generalizing i m with
  | nil => rfl
  | cons a t ih =>
    cases i with
    | zero =>
      cases m with
      | zero => exact absurd rfl h
      | succ m => rfl
    | succ i =>
      cases m with
      | zero => rfl
      | succ m => exact ih i m fun hh => h (congrArg Nat.succ hh)

theorem nthD_modifyIdx_self (l : List α) (i : Nat) (f : α → α) (d : α) :
    nthD (modifyIdx l i f) i d = if i < l.length then f (nthD l i d) else d := by
  induction l generalizing i with
  | nil => simp [modifyIdx, nthD]
  | cons a t ih =>
    cases i with
    | zero => simp [modifyIdx, nthD]
    | succ i => simpa [modifyIdx, nthD, Nat.succ_lt_succ_iff] using ih i

theorem findIdxOpt_eq_none (p : α → Bool) (l : List α)
    (h : ∀ a ∈ l, p a = false) : findIdxOpt p l = none := by
  induction l with
  | nil => rfl
  | cons a t ih =>
    have ht := ih fun x hx => h x (List.mem_cons_of_mem a hx)
    simp [findIdxOpt, h a (List.mem_cons_self a t), ht]

theorem findIdxOpt_sound (p : α → Bool) (l : List α) (j : Nat) (d : α)
    (h : findIdxOpt p l = some j) : p (nthD l j d) = true := by
  induction l generalizing j with
  | nil => simp [findIdxOpt] at h
  | cons a t ih =>
    by_cases hp : p a
    · simp [findIdxOpt, hp] at h
      subst h
      simpa [nthD] using hp
    · simp [findIdxOpt, hp, Option.map_eq_some'] at h
      obtain ⟨j2, hj2, rfl⟩ := h
      simpa [nthD] using ih j2 hj2

theorem findIdxOpt_mem (c : String) (l : List String) (h : c ∈ l) :
    ∃ j, findIdxOpt (fun k => k == c) l = some j ∧ nthD l j "" = c := by
  induction l with
  | nil => cases h
  | cons a t ih =>
    by_cases hac : a = c
    · exact ⟨0, by simp [findIdxOpt, hac], by simp [nthD, hac]⟩
    · have hmem : c ∈ t := by
        rcases List.mem_cons.mp h with h1 | h1
        · exact absurd h1.symm hac
        · exact h1
      obtain ⟨j, hj, hn⟩ := ih hmem
      refine ⟨j + 1, ?_, ?_⟩
      · simp [findIdxOpt, hac, hj]
      · simpa [nthD] using hn

theorem alookup_dictSet_self (d : List (String × PyVal)) (k : String) (v : PyVal) :
    alookup (dictSet d k v) k = some v := by
  induction d with
  | nil => simp [dictSet, alookup]
  | cons p t ih =>
    obtain ⟨k2, w⟩ := p
    by_cases h : k2 = k
    · simp [dictSet, alookup, h]
    · simp [dictSet, alookup, h, ih]

theorem alookup_dictSet_ne (d : List (String × PyVal)) (k k0 : String)
    (v : PyVal) (h : k0 ≠ k) :
    alookup (dictSet d k v) k0 = alookup d k0 := by
  induction d with
  | nil => simp [dictSet, alookup, Ne.symm h]
  | cons p t ih =>
    obtain ⟨k2, w⟩ := p
    by_cases h2 : k2 = k
    · subst h2
      simp [dictSet, alookup, Ne.symm h]
    · simp [dictSet, alookup, h2, ih]

theorem nthD_ge_length (l : List α) (i : Nat) (d : α) (h : l.length ≤ i) :
    nthD l i d = d := by
  induction l generalizing i with
  | nil => rfl
  | cons a t ih =>
    cases i with
    | zero => exact absurd h (by simp)
    | succ i => exact ih i (Nat.succ_le_succ_iff.mp h)

theorem nthD_append_left (r s : List α) (k : Nat) (d : α) (h : k < r.length) :
    nthD (r ++ s) k d = nthD r k d := by
  induction r generalizing k with
  | nil => exact absurd h (by simp)
  | cons a t ih =>
    cases k with
    | zero => rfl
    | succ k => exact ih k (Nat.succ_lt_succ_iff.mp h)

theorem nthD_cells_map (l : List (List PyVal)) (f : List PyVal → List PyVal)
    (hf : ∀ r k, nthD (f r) k PyVal.null = nthD r k PyVal.null) (m k : Nat) :
    nthD (nthD (l.map f) m []) k PyVal.null = nthD (nthD l m []) k PyVal.null := by
  induction l generalizing m with
  | nil => rfl
  | cons r t ih =>
    cases m with
    | zero => exact hf r k
    | succ m => exact ih m

theorem nthD_pad_append_null (r : List PyVal) (n k : Nat) :
    nthD (padTo r n ++ [PyVal.null]) k PyVal.null = nthD r k PyVal.null := by
  rw [padTo, List.append_assoc,
    show List.replicate (n - r.length) PyVal.null ++ [PyVal.null]
      = List.replicate (n - r.length + 1) PyVal.null from
        (List.replicate_succ' _ _).symm]
  exact nthD_append_nulls r _ k

/-! ### Lemmas about the dataframe pipeline -/

theorem addColIfMissing_spec (df : DF) (c : String) :
    ∃ suf, (addColIfMissing df c).columns = df.columns ++ suf
    ∧ c ∈ (addColIfMissing df c).columns
    ∧ (addColIfMissing df c).rows.length = df.rows.length
    ∧ ∀ m k, nthD (nthD (addColIfMissing df c).rows m []) k PyVal.null
        = nthD (nthD df.rows m []) k PyVal.null := by
  by_cases h : c ∈ df.columns
  · refine ⟨[], by simp [addColIfMissing, h], ?_, by simp [addColIfMissing, h],
      fun m k => by simp [addColIfMissing, h]⟩
    simp [addColIfMissing, h]
  · refine ⟨[c], by simp [addColIfMissing, h], by simp [addColIfMissing, h],
      by simp [addColIfMissing, h], fun m k => ?_⟩
    simp only [addColIfMissing, h]
    rw [if_neg (by simpa using h)]
    exact nthD_cells_map df.rows _ (fun r k => nthD_pad_append_null r _ k) m k

theorem ensureCols_spec (cs : List String) (df : DF) :
    ∃ suf, (cs.foldl addColIfMissing df).columns = df.columns ++ suf
    ∧ (∀ c ∈ cs, c ∈ (cs.foldl addColIfMissing df).columns)
    ∧ (cs.foldl addColIfMissing df).rows.length = df.rows.length
    ∧ ∀ m k, nthD (nthD (cs.foldl addColIfMissing df).rows m []) k PyVal.null
        = nthD (nthD df.rows m []) k PyVal.null := by
  induction cs generalizing df with
  | nil => exact ⟨[], by simp, by simp, rfl, fun m k => rfl⟩
  | cons c cs ih =>
    obtain ⟨suf0, hcols0, hmem0, hlen0, hcells0⟩ := addColIfMissing_spec df c
    obtain ⟨suf1, hcols1, hmem1, hlen1, hcells1⟩ := ih (addColIfMissing df c)
    refine ⟨suf0 ++ suf1, ?_, ?_, ?_, ?_⟩
    · simp only [List.foldl_cons, hcols1, hcols0, List.append_assoc]
    · intro x hx
      rcases List.mem_cons.mp hx with rfl | hx
      · simp only [List.foldl_cons, hcols1]
        exact List.mem_append_left _ hmem0

      · exact hmem1 x hx
    · simp only [List.foldl_cons, hlen1, hlen0]
    · intro m k
      simp only [List.foldl_cons]
      rw [hcells1 m k, hcells0 m k]

theorem atSet_spec (df : DF) (i : Nat) (c : String) (v : PyVal)
    (hmem : c ∈ df.columns) :
    (atSet df i c v).columns = df.columns
    ∧ (atSet df i c v).rows.length = df.rows.length
    ∧ ∀ m k, nthD df.columns k "" ≠ c →
        nthD (nthD (atSet df i c v).rows m []) k PyVal.null
          = nthD (nthD df.rows m []) k PyVal.null := by
  obtain ⟨j, hfind, hname⟩ := findIdxOpt_mem c df.columns hmem
  refine ⟨by simp [atSet, hfind], by simp [atSet, hfind, modifyIdx_length],
    fun m k hk => ?_⟩
  have hkj : k ≠ j := fun hh => hk (by rw [hh, hname])
  simp only [atSet, hfind]
  by_cases hmi : m = i
  · subst hmi
    rw [nthD_modifyIdx_self]
    by_cases hlt : m < df.rows.length
    · rw [if_pos hlt, nthD_setCell_ne _ _ _ _ hkj]
    · rw [if_neg hlt, nthD_ge_length df.rows m [] (Nat.le_of_not_lt hlt)]
  · rw [nthD_modifyIdx_ne _ _ _ _ _ hmi]

theorem writeRowResults_spec (res : List (String × PyVal)) (df : DF) (i : Nat)
    (hkeys : ∀ kv ∈ res, kv.1 ∈ df.columns) :
    (writeRowResults df i res).columns = df.columns
    ∧ (writeRowResults df i res).rows.length = df.rows.length
    ∧ ∀ m k, (∀ kv ∈ res, nthD df.columns k "" ≠ kv.1) →
        nthD (nthD (writeRowResults df i res).rows m []) k PyVal.null
          = nthD (nthD df.rows m []) k PyVal.null := by
  induction res generalizing df with
  | nil => exact ⟨rfl, rfl, fun m k _ => rfl⟩
  | cons kv t ih =>
    have hmem : kv.1 ∈ df.columns := hkeys kv (List.mem_cons_self kv t)
    obtain ⟨hcols0, hlen0, hcells0⟩ := atSet_spec df i kv.1 kv.2 hmem
    have hkeys2 : ∀ kv2 ∈ t, kv2.1 ∈ (atSet df i kv.1 kv.2).columns := by
      intro kv2 h2
      rw [hcols0]
      exact hkeys kv2 (List.mem_cons_of_mem kv h2)
    obtain ⟨hcols1, hlen1, hcells1⟩ := ih (atSet df i kv.1 kv.2) hkeys2
    refine ⟨?_, ?_, ?_⟩
    · simp only [writeRowResults, List.foldl_cons]
      simp only [writeRowResults] at hcols1
      rw [hcols1, hcols0]
    · simp only [writeRowResults, List.foldl_cons]
      simp only [writeRowResults] at hlen1
      rw [hlen1, hlen0]
    · intro m k hk
      simp only [writeRowResults, List.foldl_cons]
      simp only [writeRowResults] at hcells1
      rw [hcells1 m k (fun kv2 h2 => by
          rw [hcols0]
          exact hk kv2 (List.mem_cons_of_mem kv h2)),
        hcells0 m k (hk kv (List.mem_cons_self kv t))]

theorem writebackAux_spec (results : List (List (String × PyVal))) (df : DF)
    (i0 : Nat) (hkeys : ∀ res ∈ results, ∀ kv ∈ res, kv.1 ∈ df.columns) :
    (writebackAux df i0 results).columns = df.columns
    ∧ (writebackAux df i0 results).rows.length = df.rows.length
    ∧ ∀ m k, (∀ res ∈ results, ∀ kv ∈ res, nthD df.columns k "" ≠ kv.1) →
        nthD (nthD (writebackAux df i0 results).rows m []) k PyVal.null
          = nthD (nthD df.rows m []) k PyVal.null := by
  induction results generalizing df i0 with
  | nil => exact ⟨rfl, rfl, fun m k _ => rfl⟩
  | cons res t ih =>
    have hres : ∀ kv ∈ res, kv.1 ∈ df.columns :=
      hkeys res (List.mem_cons_self res t)
    obtain ⟨hcols0, hlen0, hcells0⟩ := writeRowResults_spec res df i0 hres
    have hkeys2 : ∀ r2 ∈ t, ∀ kv ∈ r2, kv.1 ∈ (writeRowResults df i0 res).columns := by
      intro r2 h2 kv hkv
      rw [hcols0]
      exact hkeys r2 (List.mem_cons_of_mem res h2) kv hkv
    obtain ⟨hcols1, hlen1, hcells1⟩ := ih (writeRowResults df i0 res) (i0 + 1) hkeys2
    refine ⟨?_, ?_, ?_⟩
    · simp only [writebackAux]
      rw [hcols1, hcols0]
    · simp only [writebackAux]
      rw [hlen1, hlen0]
    · intro m k hk
      simp only [writebackAux]
      rw [hcells1 m k (fun r2 h2 kv hkv => by
          rw [hcols0]
          exact hk r2 (List.mem_cons_of_mem res h2) kv hkv),
        hcells0 m k (hk res (List.mem_cons_self res t))]

/-! ### Lemmas about key normalisation and flattening -/

theorem normalizeKey_cases (s : String) :
    normalizeKey s ∈ categories ∨ normalizeKey s = s := by
  unfold normalizeKey
  rw [show std_keys = [("polish application", "Polish Application"),
      ("cuticle work", "Cuticle Work"), ("nail shape", "Nail Shape"),
      ("cleanliness", "Cleanliness")] from rfl]
  simp only [alookup]
  split_ifs <;> first
    | exact Or.inr Option.getD_none
    | exact Or.inl (by rw [Option.getD_some]; decide)

theorem normalizeKey_canonical (k : String) (h : k ∈ categories) :
    normalizeKey k = k := by
  fin_cases h <;> decide

theorem normalizeKey_idem (s : String) :
    normalizeKey (normalizeKey s) = normalizeKey s := by
  rcases normalizeKey_cases s with h | h
  · exact normalizeKey_canonical _ h
  · rw [h]
    exact h

theorem flattenCat_self (res : List (String × PyVal)) (cat : String) :
    alookup (flattenCat res cat) cat = some (flatValue (alookup res cat)) := by
  rcases h : alookup res cat with _ | v
  · simp [flattenCat, flatValue, h, alookup_dictSet_self]
  · rcases v with _ | s | n | item
    · simp [flattenCat, flatValue, h, alookup_dictSet_self]
    · by_cases hs : pyStrip s = ""
      · simp [flattenCat, flatValue, h, hs, alookup_dictSet_self]
      · simp [flattenCat, flatValue, h, hs]
    · simp [flattenCat, flatValue, h, alookup_dictSet_self]
    · simp [flattenCat, flatValue, h, alookup_dictSet_self]

theorem flattenCat_ne (res : List (String × PyVal)) (cat k : String)
    (h : k ≠ cat) : alookup (flattenCat res cat) k = alookup res k := by
  rcases halt : alookup res cat with _ | v
  · simp [flattenCat, halt, alookup_dictSet_ne _ _ _ _ h]
  · rcases v with _ | s | n | item
    · simp [flattenCat, halt, alookup_dictSet_ne _ _ _ _ h]
    · by_cases hs : pyStrip s = ""
      · simp [flattenCat, halt, hs, alookup_dictSet_ne _ _ _ _ h]
      · simp [flattenCat, halt, hs]
    · simp [flattenCat, halt, alookup_dictSet_ne _ _ _ _ h]
    · simp [flattenCat, halt, alookup_dictSet_ne _ _ _ _ h]

theorem reconcile_eq (res : List (String × PyVal)) :
    reconcile res =
      flattenCat (flattenCat (flattenCat (flattenCat (normalizeDict res)
        "Polish Application") "Cuticle Work") "Nail Shape") "Cleanliness" := rfl

/-! ### Claim C1 -/

/-- C1: for assessments produced per the rubric of the PROMPT, the overall
score equals the arithmetic mean of the four category scores, and the
recommendation is the step function of that mean with thresholds
8.5 / 7 / 5.5. -/
theorem c1_overall_mean_and_recommendation (a b c d : Int) :
    (idealAssessment a b c d).overall = ((a : ℚ) + b + c + d) / 4
    ∧ (8.5 ≤ (idealAssessment a b c d).overall →
        (idealAssessment a b c d).recommendation = "Highly Recommend Hire")
    ∧ (7 ≤ (idealAssessment a b c d).overall ∧ (idealAssessment a b c d).overall < 8.5 →
        (idealAssessment a b c d).recommendation = "Recommend Hire")
    ∧ (5.5 ≤ (idealAssessment a b c d).overall ∧ (idealAssessment a b c d).overall < 7 →
        (idealAssessment a b c d).recommendation = "Further Training Required")
    ∧ ((idealAssessment a b c d).overall < 5.5 →
        (idealAssessment a b c d).recommendation = "Not Recommend Hire") := by
  refine ⟨rfl, ?_, ?_, ?_, ?_⟩ <;>
      simp only [idealAssessment, recommendationOf]
  · intro h
    rw [if_pos h]
  · rintro ⟨h1, h2⟩
    rw [if_neg (not_le.mpr h2), if_pos h1]
  · rintro ⟨h1, h2⟩
    rw [if_neg (not_le.mpr (lt_trans h2 (by norm_num))),
      if_neg (not_le.mpr h2), if_pos h1]
  · intro h
    rw [if_neg (not_le.mpr (lt_trans h (by norm_num))),
      if_neg (not_le.mpr (lt_trans h (by norm_num))), if_neg (not_le.mpr h)]

/-- Witness for C1 at the boundary mean (9 + 9 + 8 + 8) / 4 = 8.5. -/
theorem c1_overall_mean_and_recommendation_witness :
    (idealAssessment 9 9 8 8).recommendation = "Highly Recommend Hire" :=
  (c1_overall_mean_and_recommendation 9 9 8 8).2.1
    (by norm_num [idealAssessment, overallScoreOf])

/-! ### Claim C2 -/

/-- C2: evaluating the pipeline at file-sharing references of both
recognised patterns.  Even in an environment whose Drive transport works
(third conjunct), source resolution yields `None` with a `NameError`
diagnostic: `_download_drive_file` references the undefined global
`drive_service` (the client built at main.py line 35 is bound to
`_service`), so no chunked download ever happens. -/
theorem c2_drive_reference_name_error :
    fetch_image_as_jpeg testEnv (PyVal.str "https://drive.google.com/open?id=abc123")
      = (none, ["[fetch_image_as_jpeg] NameError: name drive_service is not defined"])
    ∧ fetch_image_as_jpeg testEnv (PyVal.str "https://drive.google.com/file/d/ABC123/view")
      = (none, ["[fetch_image_as_jpeg] NameError: name drive_service is not defined"])
    ∧ testEnv.driveDownload "abc123" = Except.ok [7] :=
  ⟨rfl, rfl, rfl⟩

/-! ### Claim C4 -/

/-- C4 counterexample: the compact spelling of a category is NOT resolved to
the canonical field (it normalises to itself), and fields other than the
four categories (here Overall Score) are not normalised at all. -/
theorem c4_counterexample :
    normalizeKey "PolishApplication" ≠ "Polish Application"
    ∧ normalizeKey " overall score " ≠ "Overall Score" := by
  constructor <;> decide

/-- C4 (amended): key normalisation resolves the four category names — and
only those — insensitively to case and surrounding whitespace, and is
idempotent on every string; compact spellings and the two derived field
names are left as they are. -/
theorem c4_key_normalization :
    (∀ s k, k ∈ categories → pyStrip (pyLower s) = pyLower k → normalizeKey s = k)
    ∧ ∀ s, normalizeKey (normalizeKey s) = normalizeKey s := by
  constructor
  · intro s k hk hs
    fin_cases hk
    · unfold normalizeKey
      rw [hs, show alookup std_keys (pyLower "Polish Application")
          = some "Polish Application" from rfl]
      rfl
    · unfold normalizeKey
      rw [hs, show alookup std_keys (pyLower "Cuticle Work")
          = some "Cuticle Work" from rfl]
      rfl
    · unfold normalizeKey
      rw [hs, show alookup std_keys (pyLower "Nail Shape")
          = some "Nail Shape" from rfl]
      rfl
    · unfold normalizeKey
      rw [hs, show alookup std_keys (pyLower "Cleanliness")
          = some "Cleanliness" from rfl]
      rfl
  · exact normalizeKey_idem

/-- Witness for C4 on a case- and whitespace-mangled category name. -/
theorem c4_key_normalization_witness :
    normalizeKey "  CUTICLE work " = "Cuticle Work" :=
  c4_key_normalization.1 "  CUTICLE work " "Cuticle Work" (by decide) (by decide)

/-! ### Claim C5 -/

/-- C5 counterexample: an empty-string Overall Score is passed through
unchanged instead of being replaced by the "None" sentinel — the flatten
loop only runs over the four categories. -/
theorem c5_counterexample :
    ¬ alookup (reconcile [("Overall Score", PyVal.str "")]) "Overall Score"
        = some (PyVal.str "None") := by
  intro h
  rw [show alookup (reconcile [("Overall Score", PyVal.str "")]) "Overall Score"
      = some (PyVal.str "") from rfl] at h
  injection h with h1
  injection h1 with h2
  exact absurd h2 (by decide)

/-- C5 (amended): after reconciliation each of the FOUR category fields
holds the flattening of its normalised value — `"<score>, <comment>"` for a
dict, the string itself if non-empty after stripping, the "None" sentinel
otherwise — while every other key (Overall Score and Recommendation
included) is passed through from the normalised response untouched, with no
"None" defaulting. -/
theorem c5_flattening :
    ∀ res : List (String × PyVal),
      (∀ cat ∈ categories,
        alookup (reconcile res) cat = some (flatValue (alookup (normalizeDict res) cat)))
      ∧ ∀ k, k ∉ categories → alookup (reconcile res) k = alookup (normalizeDict res) k := by
  intro res
  constructor
  · intro cat hcat
    rw [reconcile_eq]
    fin_cases hcat
    · rw [flattenCat_ne _ "Cleanliness" _ (by decide),
        flattenCat_ne _ "Nail Shape" _ (by decide),
        flattenCat_ne _ "Cuticle Work" _ (by decide), flattenCat_self]
    · rw [flattenCat_ne _ "Cleanliness" _ (by decide),
        flattenCat_ne _ "Nail Shape" _ (by decide), flattenCat_self,
        flattenCat_ne _ "Polish Application" _ (by decide)]
    · rw [flattenCat_ne _ "Cleanliness" _ (by decide), flattenCat_self,
        flattenCat_ne _ "Cuticle Work" _ (by decide),
        flattenCat_ne _ "Polish Application" _ (by decide)]
    · rw [flattenCat_self, flattenCat_ne _ "Nail Shape" _ (by decide),
        flattenCat_ne _ "Cuticle Work" _ (by decide),
        flattenCat_ne _ "Polish Application" _ (by decide)]
  · intro k hk
    have h1 : k ≠ "Polish Application" := fun hh => hk (by rw [hh]; decide)
    have h2 : k ≠ "Cuticle Work" := fun hh => hk (by rw [hh]; decide)
    have h3 : k ≠ "Nail Shape" := fun hh => hk (by rw [hh]; decide)
    have h4 : k ≠ "Cleanliness" := fun hh => hk (by rw [hh]; decide)
    rw [reconcile_eq, flattenCat_ne _ _ _ h4, flattenCat_ne _ _ _ h3,
      flattenCat_ne _ _ _ h2, flattenCat_ne _ _ _ h1]

/-- Witness for C5: a structured category value flattens to
`"<score>, <comment>"`. -/
theorem c5_flattening_witness :
    alookup (reconcile [("polish application",
        PyVal.dict [("score", PyVal.int 7), ("comment", PyVal.str "clean edges")])])
      "Polish Application" = some (PyVal.str "7, clean edges") := by
  rw [(c5_flattening _).1 "Polish Application" (by decide)]
  rfl

/-! ### Claim C3 -/

/-- C3 counterexample: a row carrying the non-empty timestamp
"2024-05-01 10:00" in its second column is not skipped — the scoring oracle
is invoked for it (first conjunct), and running the script writes "None"
into its Polish Application result cell (third column of the final frame),
so its result fields do not stay unmodified (second conjunct). -/
theorem c3_counterexample :
    (processDfRow testEnv 0
        [PyVal.str "http://img.example/1.jpg", PyVal.str "2024-05-01 10:00"]).2 = true
    ∧ (runScript testEnv
        ⟨["Photo Link", "Assessed At"],
         [[PyVal.str "http://img.example/1.jpg", PyVal.str "2024-05-01 10:00"]]⟩).toOption.map
        (fun d => nthD (nthD d.rows 0 []) 2 PyVal.null) = some (PyVal.str "None") :=
  ⟨rfl, rfl⟩

/-- C3 (amended): the row loop has no already-processed pre-check at all —
its behaviour (result fields and whether the oracle is called) depends only
on the row's photo cell, so any timestamp column is ignored and every row
with a non-empty photo cell is processed. -/
theorem c3_no_timestamp_skip (env : Env) (j : Nat) (r1 r2 : List PyVal)
    (h : nthD r1 j PyVal.null = nthD r2 j PyVal.null) :
    processDfRow env j r1 = processDfRow env j r2 := by
  unfold processDfRow
  rw [h]

/-- Witness for C3: adding a timestamp cell changes nothing. -/
theorem c3_no_timestamp_skip_witness :
    processDfRow testEnv 0 [PyVal.str "u", PyVal.str "2024-05-01"]
      = processDfRow testEnv 0 [PyVal.str "u"] :=
  c3_no_timestamp_skip testEnv 0 _ _ rfl

/-! ### Claim C6 -/

/-- C6: when the image fetch for a row yields `None`, that row's result is
the all-"None" sentinel across the six output fields, the scoring oracle is
not invoked for it, and every other row is still processed (the results list
keeps one entry per row). -/
theorem c6_fetch_failure_sentinel (env : Env) (cells : List PyVal) (i : Nat)
    (cell : PyVal) (hcell : cells[i]? = some cell)
    (hfail : (fetch_image_as_jpeg env cell).1 = none) :
    (processCells env cells)[i]? = some (sentinelRow, false)
    ∧ (processCells env cells).length = cells.length
    ∧ ∀ c ∈ result_cols, alookup sentinelRow c = some (PyVal.str "None") := by
  refine ⟨?_, by simp [processCells], ?_⟩
  · have hrow : processRowT env cell = (sentinelRow, false) := by
      simp [processRowT, hfail, truthyBytes]
    simp [processCells, List.getElem?_map, hcell, hrow]
  · intro c hc
    fin_cases hc <;> rfl

/-- Witness for C6 in an environment whose HTTP fetch fails. -/
theorem c6_fetch_failure_sentinel_witness :
    (processCells failEnv [PyVal.str "http://example.com/a.jpg"])[0]?
      = some (sentinelRow, false) :=
  (c6_fetch_failure_sentinel failEnv [PyVal.str "http://example.com/a.jpg"] 0
    (PyVal.str "http://example.com/a.jpg") rfl rfl).1

/-! ### Claim C7 -/

/-- C7: JSON extraction takes the substring from the first open brace to the
last close brace of the stripped response and parses exactly that; a missing
bracket is the "No JSON found" failure, a non-parsing substring is the
JSON-decode failure, and a successful result can only come from a successful
parse of that exact substring — never a partial parse. -/
theorem c7_json_extraction (env : Env) (jpeg_b64 content : String)
    (hchat : env.chat jpeg_b64 = Except.ok content) :
    ((findIdxChar '{' (pyStrip content).data = none
        ∨ rfindIdxChar '}' (pyStrip content).data = none) →
      get_nail_assessment env jpeg_b64 = Except.error (PyErr.valueError "No JSON found"))
    ∧ (∀ v, get_nail_assessment env jpeg_b64 = Except.ok v →
        ∃ s e, findIdxChar '{' (pyStrip content).data = some s
          ∧ rfindIdxChar '}' (pyStrip content).data = some e
          ∧ env.jsonLoads (String.mk (((pyStrip content).data.drop s).take (e + 1 - s)))
              = some v)
    ∧ (∀ s e, findIdxChar '{' (pyStrip content).data = some s →
        rfindIdxChar '}' (pyStrip content).data = some e →
        env.jsonLoads (String.mk (((pyStrip content).data.drop s).take (e + 1 - s))) = none →
        get_nail_assessment env jpeg_b64 = Except.error PyErr.jsonDecodeError) := by
  refine ⟨?_, ?_, ?_⟩
  · rintro (h | h) <;>
      rcases hf : findIdxChar '{' (pyStrip content).data with _ | s <;>
        rcases hg : rfindIdxChar '}' (pyStrip content).data with _ | e <;>
          simp_all [get_nail_assessment]
  · intro v hv
    rcases hf : findIdxChar '{' (pyStrip content).data with _ | s <;>
      rcases hg : rfindIdxChar '}' (pyStrip content).data with _ | e <;>
        simp_all [get_nail_assessment]
    rcases hj : env.jsonLoads
        (String.mk (((pyStrip content).data.drop s).take (e + 1 - s))) with _ | w <;>
      simp_all
  · intro s e hf hg hj
    simp [get_nail_assessment, hchat, hf, hg, hj]

/-- Witness for C7: a response with no brackets at all is the terminal
"No JSON found" failure. -/
theorem c7_json_extraction_witness :
    get_nail_assessment { testEnv with chat := fun _ => Except.ok "no json here" } "x"
      = Except.error (PyErr.valueError "No JSON found") :=
  (c7_json_extraction { testEnv with chat := fun _ => Except.ok "no json here" }
    "x" "no json here" rfl).1 (Or.inl rfl)

/-! ### Claim C8 -/

/-- C8: the resolver never raises past its boundary — every exception of the
body of `fetch_image_as_jpeg` is converted into a `None` result plus one
logged diagnostic, and a successful body yields the bytes with no
diagnostic. -/
theorem c8_resolver_never_raises (env : Env) (v : PyVal) :
    (∀ e, fetchBody env v = Except.error e →
      fetch_image_as_jpeg env v = (none, [fetchDiagMsg e]))
    ∧ ∀ b, fetchBody env v = Except.ok b →
      fetch_image_as_jpeg env v = (some b, []) := by
  constructor <;> intro x h <;> simp [fetch_image_as_jpeg, h]

/-- Witness for C8: a failing HTTP fetch is caught and logged. -/
theorem c8_resolver_never_raises_witness :
    fetch_image_as_jpeg failEnv (PyVal.str "http://example.com/a.jpg")
      = (none, [fetchDiagMsg PyErr.httpError]) :=
  (c8_resolver_never_raises failEnv _).1 PyErr.httpError rfl

/-! ### Claim C9 -/

/-- C9: if no (tidied) column name of the sheet contains "photo"
case-insensitively, the run aborts with the schema error, and nothing else
happens — the outcome does not even depend on the environment, so no row is
fetched, scored, or written back. -/
theorem c9_missing_photo_column_aborts (env : Env) (sheet : DF)
    (h : ∀ c ∈ sheet.columns, strContains (pyLower (tidyName c)) "photo" = false) :
    runScript env sheet = Except.error (PyErr.valueError "No column containing photo found")
    ∧ ∀ env2 : Env, runScript env2 sheet = runScript env sheet := by
  have hnone : photoColIdx (tidy_headers sheet) = none := by
    unfold photoColIdx
    apply findIdxOpt_eq_none
    intro c hc
    simp only [tidy_headers, List.mem_map] at hc
    obtain ⟨c0, hc0, rfl⟩ := hc
    exact h c0 hc0
  refine ⟨by simp [runScript, hnone], fun env2 => by simp [runScript, hnone]⟩

/-- Witness for C9 on a sheet with no photo-like column. -/
theorem c9_missing_photo_column_aborts_witness :
    runScript testEnv ⟨["Name", "URL"], [[PyVal.str "a", PyVal.str "b"]]⟩
      = Except.error (PyErr.valueError "No column containing photo found") :=
  (c9_missing_photo_column_aborts testEnv _ (by decide)).1

/-! ### Claim C10 -/

/-- In `testEnv` the row loop produces only two result shapes: the sentinel
row, or the reconciliation of the empty response dict. -/
theorem processRowT_testEnv_cases (cell : PyVal) :
    (processRowT testEnv cell).1 = sentinelRow
    ∨ (processRowT testEnv cell).1 = reconcile [] := by
  simp only [processRowT]
  split
  · exact Or.inl rfl
  · have hg : ∀ x : Bytes, get_nail_assessment testEnv (testEnv.b64encode x)
        = Except.ok (PyVal.dict []) := fun x => rfl
    rw [hg]
    exact Or.inr rfl

/-- In `testEnv` every key of every produced result row is one of the six
output columns. -/
theorem testEnv_result_keys :
    ∀ cell : PyVal, ∀ kv ∈ (processRowT testEnv cell).1, kv.1 ∈ result_cols := by
  intro cell kv hkv
  rcases processRowT_testEnv_cases cell with h | h <;> rw [h] at hkv
  · exact (by decide : ∀ kv2 ∈ sentinelRow, kv2.1 ∈ result_cols) kv hkv
  · exact (by decide : ∀ kv2 ∈ reconcile [], kv2.1 ∈ result_cols) kv hkv

/-- C10 counterexample: on a 2-row sheet whose first row has an empty photo
cell, the run reaches writeback with only ONE row — the empty-photo row
("alice") has been dropped by `dropna` and is erased from the sheet by the
resizing writeback, so not every input row is still present. -/
theorem c10_counterexample :
    (runScript testEnv ⟨["Photo Link", "Name"],
        [[PyVal.null, PyVal.str "alice"],
         [PyVal.str "http://x", PyVal.str "bob"]]⟩).toOption.map
      (fun d => (d.rows.length, nthD (nthD d.rows 0 []) 1 PyVal.null))
      = some (1, PyVal.str "bob") := rfl

/-- C10 (amended): for a run that reaches writeback and whose produced
result rows only mention the six output columns, the rows surviving the
photo-cell `dropna` are exactly the rows of the tidied sheet with a
non-empty photo cell, in order, and every cell of a surviving row in a
column other than the six output columns is unchanged from what was read;
rows with an empty photo cell are dropped and lost on resize. -/
theorem c10_writeback_preservation (env : Env) (sheet : DF) (j : Nat)
    (hj : photoColIdx (tidy_headers sheet) = some j)
    (hkeys : ∀ cell : PyVal, ∀ kv ∈ (processRowT env cell).1, kv.1 ∈ result_cols) :
    ∃ out, runScript env sheet = Except.ok out
    ∧ out.rows.length = ((tidy_headers sheet).rows.filter
        (fun r => !(nthD r j PyVal.null).isNull)).length
    ∧ ∀ k, k < sheet.columns.length →
        nthD (sheet.columns.map tidyName) k "" ∉ result_cols →
        ∀ m, nthD (nthD out.rows m []) k PyVal.null
          = nthD (nthD ((tidy_headers sheet).rows.filter
              (fun r => !(nthD r j PyVal.null).isNull)) m []) k PyVal.null := by
  obtain ⟨suf, hcols2, hmem2, hlen2, hcells2⟩ :=
    ensureCols_spec result_cols (dropnaOn (tidy_headers sheet) j)
  have hwbkeys : ∀ res ∈ ((result_cols.foldl addColIfMissing
        (dropnaOn (tidy_headers sheet) j)).rows.map (processDfRow env j)).map Prod.fst,
      ∀ kv ∈ res, kv.1 ∈ (result_cols.foldl addColIfMissing
        (dropnaOn (tidy_headers sheet) j)).columns := by
    intro res hres kv hkv
    simp only [List.map_map, List.mem_map, Function.comp] at hres
    obtain ⟨r, hr, rfl⟩ := hres
    exact hmem2 _ (hkeys _ kv hkv)
  obtain ⟨hwcols, hwlen, hwcells⟩ :=
    writebackAux_spec (((result_cols.foldl addColIfMissing
        (dropnaOn (tidy_headers sheet) j)).rows.map (processDfRow env j)).map Prod.fst)
      (result_cols.foldl addColIfMissing (dropnaOn (tidy_headers sheet) j)) 0 hwbkeys
  refine ⟨writebackAll (result_cols.foldl addColIfMissing (dropnaOn (tidy_headers sheet) j))
      (((result_cols.foldl addColIfMissing (dropnaOn (tidy_headers sheet) j)).rows.map
        (processDfRow env j)).map Prod.fst), ?_, ?_, ?_⟩
  · simp [runScript, hj]
  · simp only [writebackAll]
    rw [hwlen, hlen2]
    rfl
  · intro k hklt hname m
    have hnameD : nthD (result_cols.foldl addColIfMissing
        (dropnaOn (tidy_headers sheet) j)).columns k ""
        = nthD (sheet.columns.map tidyName) k "" := by
      rw [hcols2]
      exact nthD_append_left _ _ _ _ (by simpa [dropnaOn, tidy_headers] using hklt)
    have hcond : ∀ res ∈ ((result_cols.foldl addColIfMissing
          (dropnaOn (tidy_headers sheet) j)).rows.map (processDfRow env j)).map Prod.fst,
        ∀ kv ∈ res, nthD (result_cols.foldl addColIfMissing
          (dropnaOn (tidy_headers sheet) j)).columns k "" ≠ kv.1 := by
      intro res hres kv hkv
      simp only [List.map_map, List.mem_map, Function.comp] at hres
      obtain ⟨r, hr, rfl⟩ := hres
      have hk1 : kv.1 ∈ result_cols := hkeys _ kv hkv
      rw [hnameD]
      exact fun heq => hname (heq ▸ hk1)
    simp only [writebackAll]
    rw [hwcells m k (hcond), hcells2 m k]
    rfl

/-- Witness for C10: the amended preservation statement holds of the benign
test environment on a 2-row, 2-column sheet. -/
theorem c10_writeback_preservation_witness :
    ∃ out, runScript testEnv ⟨["Photo Link", "Name"],
        [[PyVal.null, PyVal.str "alice"],
         [PyVal.str "http://x", PyVal.str "bob"]]⟩ = Except.ok out
      ∧ out.rows.length = 1
      ∧ nthD (nthD out.rows 0 []) 1 PyVal.null = PyVal.str "bob" := by
  obtain ⟨out, h1, h2, h3⟩ := c10_writeback_preservation testEnv
    ⟨["Photo Link", "Name"],
     [[PyVal.null, PyVal.str "alice"], [PyVal.str "http://x", PyVal.str "bob"]]⟩
    0 rfl testEnv_result_keys
  refine ⟨out, h1, ?_, ?_⟩
  · rw [h2]
    rfl
  · have := h3 1 (by decide) (by decide) 0
    rw [this]
    rfl

end NailTest
